import Mathlib

/-!
# Verification of the IoT-Based-Smart-Chair firmware core

Shallow embedding of `src/test-final.ino`: the multiplexer channel selector
(`selectMuxChannel`, lines 36-41), the FSR sweep inside `loop` (lines 140-160),
the DHT NaN sanitization (lines 168-175), the status decision and indicator
LED writes (lines 196-197), and the LED initialization in `setup`
(lines 110-111).

Hardware is modelled explicitly: the four select lines are a record of
booleans, the analog input is an environment function from the current
select-line state (and the read index within a sweep) to a sampled value,
and every `selectMuxChannel` / settle delay / `analogRead` call inside a
sweep is recorded in an event trace so that ordering properties can be
stated.  DHT readings are modelled as `Option ℚ` where `none` stands for a
NaN result of `dht.readHumidity()` / `dht.readTemperature()`.
-/

namespace Chair

/-- State of the four multiplexer select lines S0..S3
(pins 25, 26, 27, 32 in the source). -/
structure MuxLines where
  s0 : Bool
  s1 : Bool
  s2 : Bool
  s3 : Bool
deriving DecidableEq

/-- Arduino `bitRead(value, bit)`: bit `bit` of `value`. -/
def bitRead (value : Nat) (bit : Nat) : Bool :=
  Nat.testBit value bit

/-- Lines 36-41 of the source:

```
void selectMuxChannel(byte channel) {
  digitalWrite(S0, bitRead(channel, 0));
  digitalWrite(S1, bitRead(channel, 1));
  digitalWrite(S2, bitRead(channel, 2));
  digitalWrite(S3, bitRead(channel, 3));
}
```

`channel` has C type `byte`, hence the reduction mod 256.  The four
`digitalWrite` calls update the select-line state `st`. -/
def selectMuxChannel (channel : Nat) (st : MuxLines) : MuxLines :=
  let c := channel % 256
  { st with
    s0 := bitRead c 0
    s1 := bitRead c 1
    s2 := bitRead c 2
    s3 := bitRead c 3 }

/-- The select-line state reached by `selectMuxChannel c` (it does not
depend on the previous line state, see `selectMuxChannel_const`). -/
def selLines (c : Nat) : MuxLines :=
  selectMuxChannel c ⟨false, false, false, false⟩

/-- Numeric value of the four-line pattern: line0 is bit 0, line3 is bit 3. -/
def lineVal (st : MuxLines) : Nat :=
  (if st.s0 then 1 else 0) + 2 * (if st.s1 then 1 else 0) +
    4 * (if st.s2 then 1 else 0) + 8 * (if st.s3 then 1 else 0)

/-- `#define PRESSURE_THRESHOLD 100` (line 23 of the source). -/
def PRESSURE_THRESHOLD : Nat := 100

/-- Hardware events of one sweep, in program order:
`select c` is a completed `selectMuxChannel(c)` call, `settle ms` is the
`delay(ms)` settle wait, `sample v` is an `analogRead(MUX_SIG)` returning
`v`. -/
inductive Event where
  | select : Nat → Event
  | settle : Nat → Event
  | sample : Nat → Event
deriving DecidableEq

/-- State threaded through the FSR sweep of `loop` (lines 140-160):
the select lines, the event trace so far, the samples collected so far
(in append order, mirroring the `fsrData` string) and the `activeSensors`
counter. -/
structure SweepState where
  lines : MuxLines
  trace : List Event
  samples : List Nat
  activeSensors : Nat

/-- One iteration of the `for (int i = 0; i < 12; i++)` body
(lines 143-160 of the source):

```
selectMuxChannel(i);
delay(10); // Small delay for mux to settle
int fsrValue = analogRead(MUX_SIG);
if (fsrValue > PRESSURE_THRESHOLD) { activeSensors++; }
fsrData += ...;
```

`env i lines` is the value `analogRead` returns for the `i`-th read of the
sweep while the select lines are in state `lines`. -/
def sweepStep (env : Nat → MuxLines → Nat) (threshold : Nat)
    (st : SweepState) (i : Nat) : SweepState :=
  let lines := selectMuxChannel i st.lines
  let fsrValue := env i lines
  { lines := lines
    trace := st.trace ++ [Event.select i, Event.settle 10, Event.sample fsrValue]
    samples := st.samples ++ [fsrValue]
    activeSensors :=
      if fsrValue > threshold then st.activeSensors + 1 else st.activeSensors }

/-- The whole FSR sweep: `int activeSensors = 0;` followed by the `for`
loop over channels `0 .. channelCount - 1`.  In the source `channelCount`
is the literal `12` and `threshold` is `PRESSURE_THRESHOLD`; they are kept
as parameters, matching the spec contract `sweep(channelCount, threshold)`. -/
def sweep (env : Nat → MuxLines → Nat) (channelCount threshold : Nat)
    (lines : MuxLines) : SweepState :=
  (List.range channelCount).foldl (sweepStep env threshold)
    { lines := lines, trace := [], samples := [], activeSensors := 0 }

/-- The binary status state of the spec (§3, §4.3). -/
inductive StatusState where
  | NORMAL
  | ALERT
deriving DecidableEq

namespace Status

/-- Spec §4.3 contract `decide(activeCount, alertThreshold)`, embedded from
the condition `activeSensors > 4` of lines 196-197 of the source
(`4` generalized to `alertThreshold`):

```
digitalWrite(GREEN_LED, activeSensors > 4 ? HIGH : LOW);
digitalWrite(RED_LED, activeSensors > 4 ? LOW : HIGH);
```

ALERT is the state that drives GREEN high and RED low. -/
def decide (activeCount alertThreshold : Int) : StatusState :=
  if activeCount > alertThreshold then StatusState.ALERT else StatusState.NORMAL

end Status

/-- State of the two indicator outputs GREEN_LED (pin 12) and RED_LED
(pin 14). -/
structure LedPair where
  green : Bool
  red : Bool
deriving DecidableEq

/-- Line 196: `digitalWrite(GREEN_LED, activeSensors > 4 ? HIGH : LOW);` -/
def greenWrite (activeSensors : Nat) (st : LedPair) : LedPair :=
  { st with green := if activeSensors > 4 then true else false }

/-- Line 197: `digitalWrite(RED_LED, activeSensors > 4 ? LOW : HIGH);` -/
def redWrite (activeSensors : Nat) (st : LedPair) : LedPair :=
  { st with red := if activeSensors > 4 then false else true }

/-- The complete two-write LED update at the end of `loop`
(line 196 then line 197). -/
def ledUpdate (activeSensors : Nat) (st : LedPair) : LedPair :=
  redWrite activeSensors (greenWrite activeSensors st)

/-- LED state established by `setup` (lines 110-111):
`digitalWrite(RED_LED, HIGH); digitalWrite(GREEN_LED, LOW);`. -/
def setupLeds : LedPair := { green := false, red := true }

/-- Lines 168-175 of the source:

```
float humidity = dht.readHumidity();
float dhtTemp = dht.readTemperature();
if (isnan(humidity) || isnan(dhtTemp)) {
  humidity = -1;
  dhtTemp = -1;
}
```

A reading is `none` when the sensor returned NaN; the function yields the
pair `(humidity, dhtTemp)` that is then serialized into `postData`
(lines 187-188). -/
def dhtSanitize (humidity dhtTemp : Option ℚ) : ℚ × ℚ :=
  match humidity, dhtTemp with
  | some h, some t => (h, t)
  | _, _ => (-1, -1)

/-- Per-iteration inputs from the environment: the analog input behaviour
for this iteration's sweep and the two raw DHT readings (`none` = NaN). -/
structure IterInput where
  adc : Nat → MuxLines → Nat
  humidity : Option ℚ
  dhtTemp : Option ℚ

/-- The data produced by one `loop` iteration that the claims talk about:
the sweep samples, the `activeSensors` count, and the two DHT values as
serialized into the uploaded reading. -/
structure IterOutput where
  samples : List Nat
  activeSensors : Nat
  uploadHumidity : ℚ
  uploadDhtTemp : ℚ

/-- Persistent device state across `loop` iterations: the select lines and
the two indicator LEDs.  (`activeSensors` and `fsrData` are locals of
`loop` and do not persist.) -/
structure DeviceState where
  lines : MuxLines
  leds : LedPair
deriving DecidableEq

/-- Device state at the end of `setup`: select lines never written
(outputs default low), RED high, GREEN low. -/
def initialDevice : DeviceState :=
  { lines := ⟨false, false, false, false⟩, leds := setupLeds }

/-- One full `loop` iteration: the FSR sweep over the 12 channels
with `PRESSURE_THRESHOLD`, DHT read and sanitization, then the LED update
driven by `activeSensors > 4`. -/
def loopBody (inp : IterInput) (st : DeviceState) : DeviceState × IterOutput :=
  let res := sweep inp.adc 12 PRESSURE_THRESHOLD st.lines
  let dhtPair := dhtSanitize inp.humidity inp.dhtTemp
  let leds := ledUpdate res.activeSensors st.leds
  (⟨res.lines, leds⟩,
   ⟨res.samples, res.activeSensors, dhtPair.1, dhtPair.2⟩)

/-- Device state after `n` iterations of `loop`, starting from `st`;
`env n` supplies the environment inputs of iteration `n`. -/
def run (env : Nat → IterInput) (st : DeviceState) : Nat → DeviceState
  | 0 => st
  | n + 1 => (loopBody (env n) (run env st n)).1

/-- The output of iteration `n` of `loop`, starting from `st`. -/
def iterOutput (env : Nat → IterInput) (st : DeviceState) (n : Nat) : IterOutput :=
  (loopBody (env n) (run env st n)).2

/-- Indicator-LED states that occur during a run started from
`initialDevice` (i.e. after initialization), at `digitalWrite`
granularity: the state at every iteration boundary, and the intermediate
state inside an iteration after the GREEN write of line 196 but before the
RED write of line 197. -/
inductive LedReach (env : Nat → IterInput) : LedPair → Prop where
  | boundary (n : Nat) : LedReach env (run env initialDevice n).leds
  | mid (n : Nat) :
      LedReach env
        (greenWrite
          (sweep (env n).adc 12 PRESSURE_THRESHOLD
            (run env initialDevice n).lines).activeSensors
          (run env initialDevice n).leds)

/-- The channel carried by a `select` event, if any. -/
def selectedChannel : Event → Option Nat
  | Event.select c => some c
  | _ => none

/-- The value the environment delivers for read `i` of a sweep, taken
while the select lines hold the pattern for channel `i`. -/
def chanSample (env : Nat → MuxLines → Nat) (i : Nat) : Nat :=
  env i (selLines i)

/-- A concrete environment: every FSR reads 200 (well above the pressure
threshold) and both DHT readings are NaN. -/
def cexEnv : Nat → IterInput :=
  fun _ => { adc := fun _ _ => 200, humidity := none, dhtTemp := none }

/-- A concrete analog environment for instantiating sweep theorems:
read `i` returns `50 * i`. -/
def wEnv : Nat → MuxLines → Nat :=
  fun i _ => 50 * i

/-! ## Structural lemmas about the sweep -/

/-- `selectMuxChannel` writes all four lines, so the resulting line state
does not depend on the previous line state. -/
theorem selectMuxChannel_const (c : Nat) (st st' : MuxLines) :
    selectMuxChannel c st = selectMuxChannel c st' := rfl

theorem sweep_zero (env : Nat → MuxLines → Nat) (t : Nat) (l : MuxLines) :
    sweep env 0 t l = { lines := l, trace := [], samples := [], activeSensors := 0 } :=
  rfl

theorem sweep_succ (env : Nat → MuxLines → Nat) (t n : Nat) (l : MuxLines) :
    sweep env (n + 1) t l = sweepStep env t (sweep env n t l) n := by
  unfold sweep
  rw [List.range_succ, List.foldl_append]
  rfl

theorem sweep_samples (env : Nat → MuxLines → Nat) (t : Nat) (l : MuxLines) :
    ∀ n, (sweep env n t l).samples = (List.range n).map (chanSample env)
  | 0 => rfl
  | n + 1 => by
      rw [sweep_succ, List.range_succ, List.map_append,
        ← sweep_samples env t l n]
      rfl

theorem sweep_active (env : Nat → MuxLines → Nat) (t : Nat) (l : MuxLines) :
    ∀ n, (sweep env n t l).activeSensors =
      (sweep env n t l).samples.countP (fun v => decide (t < v))
  | 0 => rfl
  | n + 1 => by
      rw [sweep_succ]
      show (if chanSample env n > t then (sweep env n t l).activeSensors + 1
            else (sweep env n t l).activeSensors) =
        ((sweep env n t l).samples ++ [chanSample env n]).countP
          (fun v => decide (t < v))
      rw [List.countP_append, sweep_active env t l n]
      by_cases h : t < chanSample env n <;>
        simp [List.countP, List.countP.go, h]

theorem sweep_trace_succ (env : Nat → MuxLines → Nat) (t n : Nat) (l : MuxLines) :
    (sweep env (n + 1) t l).trace = (sweep env n t l).trace ++
      [Event.select n, Event.settle 10, Event.sample (chanSample env n)] := by
  rw [sweep_succ]; rfl

theorem sweep_trace_length (env : Nat → MuxLines → Nat) (t : Nat) (l : MuxLines) :
    ∀ n, (sweep env n t l).trace.length = 3 * n
  | 0 => rfl
  | n + 1 => by
      rw [sweep_trace_succ, List.length_append, sweep_trace_length env t l n]
      show 3 * n + 3 = 3 * (n + 1)
      omega

theorem sweep_trace_get (env : Nat → MuxLines → Nat) (t : Nat) (l : MuxLines) :
    ∀ n i, i < n →
      (sweep env n t l).trace[3 * i]? = some (Event.select i) ∧
      (sweep env n t l).trace[3 * i + 1]? = some (Event.settle 10) ∧
      (sweep env n t l).trace[3 * i + 2]? = some (Event.sample (chanSample env i))
  | 0, i, h => absurd h (Nat.not_lt_zero i)
  | n + 1, i, h => by
      rw [sweep_trace_succ]
      rcases Nat.lt_succ_iff_lt_or_eq.mp h with hi | hi
      · have hlen := sweep_trace_length env t l n
        have h0 : 3 * i < (sweep env n t l).trace.length := by omega
        have h1 : 3 * i + 1 < (sweep env n t l).trace.length := by omega
        have h2 : 3 * i + 2 < (sweep env n t l).trace.length := by omega
        rw [List.getElem?_append_left h0, List.getElem?_append_left h1,
          List.getElem?_append_left h2]
        exact sweep_trace_get env t l n i hi
      · subst hi
        have hlen := sweep_trace_length env t l i
        refine ⟨?_, ?_, ?_⟩
        · rw [show 3 * i = (sweep env i t l).trace.length + 0 by omega,
            List.getElem?_append_right (by omega)]
          simp
        · rw [show 3 * i + 1 = (sweep env i t l).trace.length + 1 by omega,
            List.getElem?_append_right (by omega)]
          simp
        · rw [show 3 * i + 2 = (sweep env i t l).trace.length + 2 by omega,
            List.getElem?_append_right (by omega)]
          simp

/-! ## Lemmas about the channel selector bit pattern -/

theorem selectMuxChannel_bits (c : Nat) (st : MuxLines) :
    (selectMuxChannel c st).s0 = c.testBit 0 ∧
    (selectMuxChannel c st).s1 = c.testBit 1 ∧
    (selectMuxChannel c st).s2 = c.testBit 2 ∧
    (selectMuxChannel c st).s3 = c.testBit 3 := by
  have h : ∀ j, j < 8 → (c % 256).testBit j = c.testBit j := by
    intro j hj
    rw [show (256 : Nat) = 2 ^ 8 by norm_num, Nat.testBit_mod_two_pow]
    simp [hj]
  exact ⟨h 0 (by omega), h 1 (by omega), h 2 (by omega), h 3 (by omega)⟩

theorem lineVal_selectMuxChannel (c : Nat) (st : MuxLines) :
    lineVal (selectMuxChannel c st) = c % 16 := by
  obtain ⟨h0, h1, h2, h3⟩ := selectMuxChannel_bits c st
  show (if (selectMuxChannel c st).s0 then 1 else 0) +
      2 * (if (selectMuxChannel c st).s1 then 1 else 0) +
      4 * (if (selectMuxChannel c st).s2 then 1 else 0) +
      8 * (if (selectMuxChannel c st).s3 then 1 else 0) = c % 16
  rw [h0, h1, h2, h3]
  have hb : ∀ j, j < 4 → c.testBit j = (c % 16).testBit j := by
    intro j hj
    rw [show (16 : Nat) = 2 ^ 4 by norm_num, Nat.testBit_mod_two_pow]
    simp [hj]
  rw [hb 0 (by omega), hb 1 (by omega), hb 2 (by omega), hb 3 (by omega)]
  have h16 : c % 16 < 16 := Nat.mod_lt _ (by norm_num)
  set m := c % 16 with hm
  clear hm hb h0 h1 h2 h3
  interval_cases m <;> decide

theorem sweep_trace_selects (env : Nat → MuxLines → Nat) (t : Nat) (l : MuxLines) :
    ∀ n, (sweep env n t l).trace.filterMap selectedChannel = List.range n
  | 0 => rfl
  | n + 1 => by
      rw [sweep_trace_succ, List.filterMap_append, sweep_trace_selects env t l n,
        List.range_succ]
      rfl

/-! ## Lemmas about the indicator LEDs -/

/-- After the complete two-write update of lines 196-197 the two LEDs are
always in opposite states, whatever they were before. -/
theorem ledUpdate_exclusive (a : Nat) (st : LedPair) :
    (ledUpdate a st).green = !(ledUpdate a st).red := by
  by_cases h : a > 4 <;> simp [ledUpdate, greenWrite, redWrite, h]

/-! ## Claim theorems -/

/-- Claim C1: for every sweep, the Active Count produced equals the number
of sampled values strictly greater than the pressure threshold, and it is
recomputed from zero at the start of each sweep, never carried over: the
count of iteration `n` is the same whatever device state the run started
from (in particular whatever any previous sweep produced). -/
theorem C1_active_count (env : Nat → IterInput) (st st' : DeviceState) (n : Nat) :
    (iterOutput env st n).activeSensors =
      (iterOutput env st n).samples.countP (fun v => decide (PRESSURE_THRESHOLD < v)) ∧
    (iterOutput env st n).activeSensors = (iterOutput env st' n).activeSensors := by
  constructor
  · exact sweep_active (env n).adc PRESSURE_THRESHOLD (run env st n).lines 12
  · show (sweep (env n).adc 12 PRESSURE_THRESHOLD (run env st n).lines).activeSensors =
      (sweep (env n).adc 12 PRESSURE_THRESHOLD (run env st' n).lines).activeSensors
    rw [sweep_active, sweep_active, sweep_samples, sweep_samples]

/-- Claim C2: the status decision returns ALERT if and only if the active
count is strictly greater than the alert threshold, else NORMAL; in
particular `decide(5, 4) = ALERT`, `decide(4, 4) = NORMAL`,
`decide(0, 4) = NORMAL`. -/
theorem C2_decide_spec :
    (∀ a k : Int, Status.decide a k = StatusState.ALERT ↔ a > k) ∧
    (∀ a k : Int, Status.decide a k = StatusState.NORMAL ↔ a ≤ k) ∧
    Status.decide 5 4 = StatusState.ALERT ∧
    Status.decide 4 4 = StatusState.NORMAL ∧
    Status.decide 0 4 = StatusState.NORMAL := by
  refine ⟨fun a k => ?_, fun a k => ?_, by decide, by decide, by decide⟩ <;>
    by_cases h : a > k <;>
    simp only [Status.decide, h, if_true, if_false, reduceCtorEq] <;>
    simp <;> omega

/-- Claim C3: for every `channelCount ≥ 0`, `sweep(channelCount, t)`
returns a result sequence of exactly length `channelCount`; for
`channelCount = 0` it returns an empty sequence with Active Count 0. -/
theorem C3_sweep_length :
    (∀ (env : Nat → MuxLines → Nat) (n t : Nat) (l : MuxLines),
      (sweep env n t l).samples.length = n) ∧
    (∀ (env : Nat → MuxLines → Nat) (t : Nat) (l : MuxLines),
      (sweep env 0 t l).samples = [] ∧ (sweep env 0 t l).activeSensors = 0) := by
  refine ⟨fun env n t l => ?_, fun env t l => ⟨rfl, rfl⟩⟩
  rw [sweep_samples]
  simp

/-- Claim C4: the sweep visits channel indices `0 .. channelCount − 1` in
ascending order, selecting each channel exactly once (the trace's
selections, in order, are exactly `0, 1, ..., channelCount − 1`), and
entry `i` of the result sequence is the value the analog environment
delivers for read `i` while the select lines hold channel `i`'s pattern. -/
theorem C4_sweep_order (env : Nat → MuxLines → Nat) (n t : Nat) (l : MuxLines) :
    (sweep env n t l).samples = (List.range n).map (chanSample env) ∧
    (sweep env n t l).trace.filterMap selectedChannel = List.range n :=
  ⟨sweep_samples env t l n, sweep_trace_selects env t l n⟩

/-- Claim C5: `select(channel)` drives the four select lines so their
combined binary pattern equals the channel's low four bits, bit 0 on the
first line, bit 3 on the fourth; for channel 9 (binary 1001) it sets
line0 = 1, line1 = 0, line2 = 0, line3 = 1. -/
theorem C5_select_bits :
    (∀ (c : Nat) (st : MuxLines),
      (selectMuxChannel c st).s0 = c.testBit 0 ∧
      (selectMuxChannel c st).s1 = c.testBit 1 ∧
      (selectMuxChannel c st).s2 = c.testBit 2 ∧
      (selectMuxChannel c st).s3 = c.testBit 3 ∧
      lineVal (selectMuxChannel c st) = c % 16) ∧
    (∀ st : MuxLines, selectMuxChannel 9 st = ⟨true, false, false, true⟩) := by
  refine ⟨fun c st => ?_, fun st => rfl⟩
  obtain ⟨h0, h1, h2, h3⟩ := selectMuxChannel_bits c st
  exact ⟨h0, h1, h2, h3, lineVal_selectMuxChannel c st⟩

/-- Claim C6 counterexample: the claim says the two indicator outputs are
never both in the same logical state in any reachable state after
initialization, but the update of lines 196-197 is two separate
`digitalWrite` calls: starting from the setup state (GREEN low, RED high),
an iteration whose sweep finds more than 4 active sensors (here all 12
FSRs read 200) first drives GREEN high, reaching the state
GREEN = high, RED = high before line 197 drives RED low. -/
theorem C6_counterexample : LedReach cexEnv { green := true, red := true } := by
  have h := @LedReach.mid cexEnv 0
  have e : greenWrite
      (sweep (cexEnv 0).adc 12 PRESSURE_THRESHOLD
        (run cexEnv initialDevice 0).lines).activeSensors
      (run cexEnv initialDevice 0).leds = { green := true, red := true } := by
    decide
  rwa [e] at h

/-- Claim C6, amended: at the end of `setup` and at every loop-iteration
boundary (i.e. whenever the two-write LED update of lines 196-197 has run
to completion, and before the next one begins) exactly one of the two
indicator outputs is high and the other low; but between the two writes
inside an update the outputs can transiently share a state. -/
theorem C6_boundary_exclusive (env : Nat → IterInput) (n : Nat) :
    (run env initialDevice n).leds.green = !(run env initialDevice n).leds.red := by
  cases n with
  | zero => rfl
  | succ m =>
      exact ledUpdate_exclusive
        (sweep (env m).adc 12 PRESSURE_THRESHOLD (run env initialDevice m).lines).activeSensors
        (run env initialDevice m).leds

/-- Claim C7: `decide` is monotonic in its first argument: for a fixed
alert threshold `k`, if `a ≤ b` and `decide a k = ALERT` then
`decide b k = ALERT`. -/
theorem C7_decide_monotone (a b k : Int) (hab : a ≤ b)
    (h : Status.decide a k = StatusState.ALERT) :
    Status.decide b k = StatusState.ALERT := by
  by_cases hbk : b > k
  · simp [Status.decide, hbk]
  · exfalso
    unfold Status.decide at h
    split at h
    · omega
    · exact absurd h (by simp)

/-- Witness for C7 at the concrete input a = 5, b = 6, k = 4. -/
theorem C7_witness :
    (5 : Int) ≤ 6 ∧ Status.decide 5 4 = StatusState.ALERT ∧
      Status.decide 6 4 = StatusState.ALERT :=
  ⟨by decide, by decide, C7_decide_monotone 5 6 4 (by decide) (by decide)⟩

/-- Claim C8: within a sweep, for every channel `i < channelCount`, the
completed selection of channel `i` (trace position `3i`) is followed by
the 10 ms settle delay (position `3i + 1`) and only then by the matching
sample (position `3i + 2`); since the trace has exactly `3·channelCount`
events and every position is pinned, no other channel selection occurs
between a select and its matching sample. -/
theorem C8_happens_before (env : Nat → MuxLines → Nat) (n t : Nat) (l : MuxLines)
    (i : Nat) (h : i < n) :
    (sweep env n t l).trace.length = 3 * n ∧
    (sweep env n t l).trace[3 * i]? = some (Event.select i) ∧
    (sweep env n t l).trace[3 * i + 1]? = some (Event.settle 10) ∧
    (sweep env n t l).trace[3 * i + 2]? = some (Event.sample (chanSample env i)) := by
  obtain ⟨h0, h1, h2⟩ := sweep_trace_get env t l n i h
  exact ⟨sweep_trace_length env t l n, h0, h1, h2⟩

/-- Witness for C8 at the concrete input: the source's 12-channel sweep
with threshold 100 on the environment `wEnv`, channel 3. -/
theorem C8_witness :
    (3 : Nat) < 12 ∧
    ((sweep wEnv 12 100 initialDevice.lines).trace.length = 3 * 12 ∧
     (sweep wEnv 12 100 initialDevice.lines).trace[3 * 3]? = some (Event.select 3) ∧
     (sweep wEnv 12 100 initialDevice.lines).trace[3 * 3 + 1]? = some (Event.settle 10) ∧
     (sweep wEnv 12 100 initialDevice.lines).trace[3 * 3 + 2]? =
       some (Event.sample (chanSample wEnv 3))) :=
  ⟨by decide, C8_happens_before wEnv 12 100 initialDevice.lines 3 (by decide)⟩

/-- Claim C9: `select` is idempotent: calling it twice in a row with the
same channel leaves the four select lines exactly as one call does, and
the resulting line state does not depend on the previous line state at all
(no hidden toggling state). -/
theorem C9_select_idempotent (c : Nat) (st st' : MuxLines) :
    selectMuxChannel c (selectMuxChannel c st) = selectMuxChannel c st ∧
    selectMuxChannel c st = selectMuxChannel c st' :=
  ⟨rfl, rfl⟩

/-- Claim C10: if either DHT reading is NaN (modelled as `none`), both
values are replaced by the sentinel −1 before serialization; if neither is
NaN both pass through unchanged; and the pair serialized into the uploaded
reading by `loop` is exactly the sanitized pair. -/
theorem C10_dht_sentinel :
    (∀ h t : ℚ, dhtSanitize (some h) (some t) = (h, t)) ∧
    (∀ x : Option ℚ, dhtSanitize none x = (-1, -1)) ∧
    (∀ x : Option ℚ, dhtSanitize x none = (-1, -1)) ∧
    (∀ (inp : IterInput) (st : DeviceState),
      ((loopBody inp st).2.uploadHumidity, (loopBody inp st).2.uploadDhtTemp) =
        dhtSanitize inp.humidity inp.dhtTemp) := by
  refine ⟨fun h t => rfl, fun x => rfl, fun x => ?_, fun inp st => rfl⟩
  cases x <;> rfl

end Chair
